import Mathlib

/-!
Shallow embedding of github.com/baickl/logger (src/logger.go).

Conventions of the embedding:
* Go machine integers that matter here are sizes (int64) and small counters;
  sizes are `Int`, counters are `Nat`.
* The filesystem is an explicit state: a stat database (path to size/isDir),
  the set of directories ensured by MkdirAll, the set of open file handles,
  and a predicate selecting the paths at which OpenFile fails.
* The decimal rendering of the %d / %0Nd verbs is `natDec` / `pad`,
  defined by structural recursion so that everything evaluates.
* A Go panic that a function can raise is an `Except String` value; the
  `defer catchError()` idiom of the source is the `protect` wrapper below.
-/

namespace LoggerSpec

/-! ### Decimal rendering of natural numbers (the %d verb) -/

/-- Numeric value of a decimal digit character. -/
def charVal (c : Char) : Nat := c.toNat - 48

/-- Little-endian digit characters of `n`, with explicit fuel. -/
def natDecAux : Nat → Nat → List Char
  | 0, _ => []
  | fuel + 1, n => if n = 0 then [] else Nat.digitChar (n % 10) :: natDecAux fuel (n / 10)

/-- Decimal rendering of a natural number, as Go fmt's %d prints it. -/
def natDec (n : Nat) : String :=
  if n = 0 then "0" else String.mk (natDecAux (n + 1) n).reverse

/-- Value of a little-endian digit-character list. -/
def undigits : List Char → Nat
  | [] => 0
  | c :: r => charVal c + 10 * undigits r

theorem charVal_digitChar_all : ∀ d, d < 10 → charVal (Nat.digitChar d) = d := by decide

theorem undigits_natDecAux : ∀ fuel n, n ≤ fuel → undigits (natDecAux fuel n) = n := by
  intro fuel
  induction fuel with
  | zero =>
      intro n hn
      have : n = 0 := Nat.le_zero.mp hn
      subst this; rfl
  | succ fuel ih =>
      intro n hn
      by_cases h0 : n = 0
      · subst h0; simp [natDecAux, undigits]
      · have hpos : 0 < n := Nat.pos_of_ne_zero h0
        have hlt : n / 10 < n := Nat.div_lt_self hpos (by norm_num)
        have hfuel : n / 10 ≤ fuel := by omega
        have hmod : n % 10 < 10 := Nat.mod_lt _ (by norm_num)
        simp only [natDecAux, h0, if_false, undigits]
        rw [ih _ hfuel, charVal_digitChar_all _ hmod]
        omega

theorem string_mk_inj {l1 l2 : List Char} (h : String.mk l1 = String.mk l2) : l1 = l2 := by
  injection h

theorem natDec_inj {n m : Nat} (h : natDec n = natDec m) : n = m := by
  unfold natDec at h
  by_cases hn : n = 0 <;> by_cases hm : m = 0
  · omega
  · exfalso
    simp only [hn, if_true, hm, if_false] at h
    have h2 : (['0'] : List Char) = (natDecAux (m + 1) m).reverse := by
      have := string_mk_inj h
      simpa using this
    have h3 : natDecAux (m + 1) m = ['0'] := by
      have := congrArg List.reverse h2
      simpa using this.symm
    have h4 : undigits (natDecAux (m + 1) m) = m := undigits_natDecAux _ _ (Nat.le_succ m)
    rw [h3] at h4
    simp [undigits, charVal] at h4
    omega
  · exfalso
    simp only [hn, if_false, hm, if_true] at h
    have h2 : (natDecAux (n + 1) n).reverse = (['0'] : List Char) := by
      have := string_mk_inj h
      simpa using this
    have h3 : natDecAux (n + 1) n = ['0'] := by
      have := congrArg List.reverse h2
      simpa using this
    have h4 : undigits (natDecAux (n + 1) n) = n := undigits_natDecAux _ _ (Nat.le_succ n)
    rw [h3] at h4
    simp [undigits, charVal] at h4
    omega
  · simp only [hn, if_false, hm, if_false] at h
    have h2 : (natDecAux (n + 1) n).reverse = (natDecAux (m + 1) m).reverse := string_mk_inj h
    have h3 : natDecAux (n + 1) n = natDecAux (m + 1) m := by
      have := congrArg List.reverse h2
      simpa using this
    have h4 := undigits_natDecAux (n + 1) n (Nat.le_succ n)
    have h5 := undigits_natDecAux (m + 1) m (Nat.le_succ m)
    rw [h3] at h4
    omega

theorem str_data_append (a b : String) : (a ++ b).data = a.data ++ b.data := by
  cases a; cases b; rfl

theorem str_ext {a b : String} (h : a.data = b.data) : a = b := by
  cases a; cases b
  exact congrArg String.mk h

theorem str_append_assoc (a b c : String) : a ++ b ++ c = a ++ (b ++ c) := by
  apply str_ext
  simp [str_data_append]

/-- Zero-padding to width `w`, as Go fmt's %0wd prints a nonnegative number. -/
def pad (w n : Nat) : String :=
  String.mk (List.replicate (w - (natDec n).data.length) '0') ++ natDec n

/-! ### Severity levels (type LEVEL in the source) -/

/-- The LEVEL enumeration: ALL, DEBUG, INFO, WARN, ERROR, FATAL (iota order). -/
inductive LEVEL
  | ALL
  | DEBUG
  | INFO
  | WARN
  | ERROR
  | FATAL
deriving DecidableEq, Repr

/-- The integer value of a LEVEL constant (Go iota). -/
def LEVEL.toNat : LEVEL → Nat
  | .ALL => 0
  | .DEBUG => 1
  | .INFO => 2
  | .WARN => 3
  | .ERROR => 4
  | .FATAL => 5

/-- Go integer comparison a <= b on LEVEL values. -/
def levelLe (a b : LEVEL) : Bool := decide (a.toNat ≤ b.toNat)

/-- The severity word prepended to each log line. -/
def levelName : LEVEL → String
  | .ALL => "ALL"
  | .DEBUG => "DEBUG"
  | .INFO => "INFO"
  | .WARN => "WARN"
  | .ERROR => "ERROR"
  | .FATAL => "FATAL"

/-! ### Wall clock -/

/-- The components of a time.Time value that the source reads. -/
structure GoTime where
  year : Nat
  month : Nat
  day : Nat
  yearDay : Nat
  hour : Nat
  minute : Nat
  second : Nat
  nanosecond : Nat
deriving DecidableEq, Repr

/-! ### Emission model (the fifteen package-level functions and the Verbose methods)

The global state an emission call reads: logLevel, logConsole, logConsolePrefix,
whether the global logFile handle is non-nil, plus the ambient inputs Go
supplies (current time, caller file and line from runtime.Caller). The message
text is taken at the boundary of the Go fmt library: the plain variants receive
the default rendering of their one argument, the f-variants receive the result
of fmt.Sprintf, the ln-variants the renderings of their argument list. -/

structure EmitState where
  logLevel : LEVEL
  logConsole : Bool
  consolePre : String
  hasLogFile : Bool
  now : GoTime
  callerFile : String
  callerLine : Nat

/-- What one gate-passing call dispatches: the file line (when the global
handle is non-nil) and the console line (when the console flag is on). -/
structure Record where
  fileLine : Option String
  consoleLine : Option String
deriving DecidableEq, Repr

/-- The caller-visible result of one emission call. `outcome` is an error
exactly when a panic escapes to the caller; `emitted` is the dispatched
record, `fallback` the line catchError prints when it recovers a fault. -/
structure CallResult where
  outcome : Except String Unit
  emitted : Option Record
  fallback : Option String

/-- strings.TrimRight(s, newline): drop every trailing newline character. -/
def trimRightNL (s : String) : String :=
  String.mk (s.data.reverse.dropWhile (fun c => c = '\n')).reverse

/-- fmt.Sprintln applied to one already-rendered argument. -/
def sprintln1 (s : String) : String := s ++ "\n"

/-- fmt.Sprintln applied to a list of already-rendered arguments. -/
def sprintlnList (args : List String) : String := String.intercalate " " args ++ "\n"

/-- The context string: severity word, a space, the assembled message,
right-trimmed of newlines. -/
def buildContext (lvl : LEVEL) (body : String) : String :=
  trimRightNL (levelName lvl ++ " " ++ body)

/-- SprintColor from the source: ESC [ style ; background ; foreground m
text ESC [0m. -/
def sprintColor (str : String) (s fc bc : Nat) : String :=
  String.mk [Char.ofNat 27] ++ "[" ++ natDec s ++ ";" ++ natDec (bc + 10) ++ ";" ++
    natDec fc ++ "m" ++ str ++ String.mk [Char.ofNat 27] ++ "[0m"

/-- The console function strips the caller file down to its base name; the
source scans for a path separator at index ≥ 1 only. -/
def shortName (file : String) : String :=
  if (file.data.drop 1).contains '/' then
    String.mk (file.data.reverse.takeWhile (fun c => c ≠ '/')).reverse
  else file

/-- The console line before coloring, as the two Sprintf calls in console()
build it (with or without the configured console prefix). -/
def consoleFormat (st : EmitState) (args : String) : String :=
  let stamp := "==>[" ++ pad 4 st.now.year ++ "/" ++ pad 2 st.now.month ++ "/" ++
    pad 2 st.now.day ++ "_" ++ pad 2 st.now.hour ++ ":" ++ pad 2 st.now.minute ++ ":" ++
    pad 2 st.now.second ++ "." ++ pad 6 (st.now.nanosecond / 1000) ++ "] "
  let site := "#" ++ shortName st.callerFile ++ ":" ++ natDec st.callerLine ++ " " ++ args
  if st.consolePre.data.length > 0 then stamp ++ "@" ++ st.consolePre ++ " " ++ site
  else stamp ++ site

/-- The switch in console(): style and color by severity. -/
def consoleStyled (lvl : LEVEL) (context : String) : String :=
  match lvl with
  | .DEBUG => sprintColor context 0 39 39
  | .INFO => sprintColor context 0 39 39
  | .WARN => sprintColor context 0 33 39
  | .ERROR => sprintColor context 1 31 39
  | .FATAL => sprintColor context 1 35 39
  | _ => sprintColor context 0 39 39

/-- console(ll, args): produces a console line only when the console flag
is enabled; the severity threshold is not consulted here. -/
def console (st : EmitState) (lvl : LEVEL) (args : String) : Option String :=
  if st.logConsole then some (consoleStyled lvl (consoleFormat st args)) else none

/-- The sink dispatch shared by every gate-passing call: file write when the
global handle is non-nil, console write per the console gate. -/
def emitBody (st : EmitState) (lvl : LEVEL) (context : String) : Record :=
  { fileLine := if st.hasLogFile then some context else none
    consoleLine := console st lvl context }

/-- The defer catchError() / recover() idiom: any panic raised by the body is
recovered inside the call; catchError prints an err line via the std logger. -/
def protect (body : Except String (Option Record)) : CallResult :=
  match body with
  | .ok r => { outcome := .ok (), emitted := r, fallback := none }
  | .error m => { outcome := .ok (), emitted := none, fallback := some ("err " ++ m) }

/-- The shape shared by the fifteen package-level emission functions: gate on
logLevel <= severity, then assemble the context and dispatch, all under the
recover wrapper. `inj` injects an internal failure into the protected body
(a fault the write path might raise), `none` meaning normal operation. -/
def plainEmit (st : EmitState) (lvl : LEVEL) (inj : Option String) (body : String) :
    CallResult :=
  protect (if levelLe st.logLevel lvl then
    match inj with
    | some m => .error m
    | none => .ok (some (emitBody st lvl (buildContext lvl body)))
  else .ok none)

def Debug (st : EmitState) (inj : Option String) (arg : String) : CallResult :=
  plainEmit st .DEBUG inj (sprintln1 arg)

def Info (st : EmitState) (inj : Option String) (arg : String) : CallResult :=
  plainEmit st .INFO inj (sprintln1 arg)

def Warn (st : EmitState) (inj : Option String) (arg : String) : CallResult :=
  plainEmit st .WARN inj (sprintln1 arg)

def Error (st : EmitState) (inj : Option String) (arg : String) : CallResult :=
  plainEmit st .ERROR inj (sprintln1 arg)

def Fatal (st : EmitState) (inj : Option String) (arg : String) : CallResult :=
  plainEmit st .FATAL inj (sprintln1 arg)

def Debugf (st : EmitState) (inj : Option String) (formatted : String) : CallResult :=
  plainEmit st .DEBUG inj formatted

def Infof (st : EmitState) (inj : Option String) (formatted : String) : CallResult :=
  plainEmit st .INFO inj formatted

def Warnf (st : EmitState) (inj : Option String) (formatted : String) : CallResult :=
  plainEmit st .WARN inj formatted

def Errorf (st : EmitState) (inj : Option String) (formatted : String) : CallResult :=
  plainEmit st .ERROR inj formatted

def Fatalf (st : EmitState) (inj : Option String) (formatted : String) : CallResult :=
  plainEmit st .FATAL inj formatted

def Debugln (st : EmitState) (inj : Option String) (args : List String) : CallResult :=
  plainEmit st .DEBUG inj (sprintlnList args)

def Infoln (st : EmitState) (inj : Option String) (args : List String) : CallResult :=
  plainEmit st .INFO inj (sprintlnList args)

def Warnln (st : EmitState) (inj : Option String) (args : List String) : CallResult :=
  plainEmit st .WARN inj (sprintlnList args)

def Errorln (st : EmitState) (inj : Option String) (args : List String) : CallResult :=
  plainEmit st .ERROR inj (sprintlnList args)

def Fatalln (st : EmitState) (inj : Option String) (args : List String) : CallResult :=
  plainEmit st .FATAL inj (sprintlnList args)

/-- type Verbose bool. -/
abbrev Verbose := Bool

/-- V(level): the verbose gate as the source computes it, from the current
logLevel; note the comparison logLevel >= level. -/
def V (logLevel level : LEVEL) : Verbose :=
  if levelLe level logLevel then true else false

/-- The shape shared by the fifteen Verbose methods: early return when the
precomputed gate is off, otherwise assemble and dispatch under the recover
wrapper; no threshold comparison happens here. -/
def verboseEmit (v : Verbose) (st : EmitState) (lvl : LEVEL) (inj : Option String)
    (body : String) : CallResult :=
  if v then
    protect (match inj with
      | some m => .error m
      | none => .ok (some (emitBody st lvl (buildContext lvl body))))
  else { outcome := .ok (), emitted := none, fallback := none }

def Verbose.Debug (v : Verbose) (st : EmitState) (inj : Option String) (arg : String) :
    CallResult := verboseEmit v st .DEBUG inj (sprintln1 arg)

def Verbose.Info (v : Verbose) (st : EmitState) (inj : Option String) (arg : String) :
    CallResult := verboseEmit v st .INFO inj (sprintln1 arg)

def Verbose.Warn (v : Verbose) (st : EmitState) (inj : Option String) (arg : String) :
    CallResult := verboseEmit v st .WARN inj (sprintln1 arg)

def Verbose.Error (v : Verbose) (st : EmitState) (inj : Option String) (arg : String) :
    CallResult := verboseEmit v st .ERROR inj (sprintln1 arg)

def Verbose.Fatal (v : Verbose) (st : EmitState) (inj : Option String) (arg : String) :
    CallResult := verboseEmit v st .FATAL inj (sprintln1 arg)

def Verbose.Debugf (v : Verbose) (st : EmitState) (inj : Option String) (formatted : String) :
    CallResult := verboseEmit v st .DEBUG inj formatted

def Verbose.Infof (v : Verbose) (st : EmitState) (inj : Option String) (formatted : String) :
    CallResult := verboseEmit v st .INFO inj formatted

def Verbose.Warnf (v : Verbose) (st : EmitState) (inj : Option String) (formatted : String) :
    CallResult := verboseEmit v st .WARN inj formatted

def Verbose.Errorf (v : Verbose) (st : EmitState) (inj : Option String) (formatted : String) :
    CallResult := verboseEmit v st .ERROR inj formatted

def Verbose.Fatalf (v : Verbose) (st : EmitState) (inj : Option String) (formatted : String) :
    CallResult := verboseEmit v st .FATAL inj formatted

def Verbose.Debugln (v : Verbose) (st : EmitState) (inj : Option String) (args : List String) :
    CallResult := verboseEmit v st .DEBUG inj (sprintlnList args)

def Verbose.Infoln (v : Verbose) (st : EmitState) (inj : Option String) (args : List String) :
    CallResult := verboseEmit v st .INFO inj (sprintlnList args)

def Verbose.Warnln (v : Verbose) (st : EmitState) (inj : Option String) (args : List String) :
    CallResult := verboseEmit v st .WARN inj (sprintlnList args)

def Verbose.Errorln (v : Verbose) (st : EmitState) (inj : Option String) (args : List String) :
    CallResult := verboseEmit v st .ERROR inj (sprintlnList args)

def Verbose.Fatalln (v : Verbose) (st : EmitState) (inj : Option String) (args : List String) :
    CallResult := verboseEmit v st .FATAL inj (sprintlnList args)

/-! ### Filesystem model -/

/-- Result of os.Stat on an existing entry: size in bytes and directory flag. -/
structure FileInfo where
  size : Int
  isDir : Bool
deriving DecidableEq, Repr

/-- The filesystem state: the stat database, the directories ensured by
MkdirAll, the open handles, a counter supplying fresh handles, and the
predicate selecting the paths at which os.OpenFile fails. -/
structure FS where
  files : List (String × FileInfo)
  dirs : List String
  openHandles : List Nat
  nextHandle : Nat
  openFails : String → Bool

/-- os.Stat: the first entry for the path, if any. -/
def statF : List (String × FileInfo) → String → Option FileInfo
  | [], _ => none
  | (q, i) :: r, p => if q = p then some i else statF r p

/-- isFileExist from the source: stat succeeds and the entry is not a
directory. -/
def isFileExist (fs : FS) (p : String) : Bool :=
  match statF fs.files p with
  | none => false
  | some i => !i.isDir

/-- os.MkdirAll with idempotent semantics: ensure the directory is present. -/
def mkdirAll (fs : FS) (d : String) : FS :=
  if d ∈ fs.dirs then fs else { fs with dirs := d :: fs.dirs }

/-- os.OpenFile with O_RDWR|O_APPEND|O_CREATE: fails at the configured paths;
on success returns a fresh handle and creates the file if absent. -/
def openFile (fs : FS) (p : String) : Option Nat × FS :=
  if fs.openFails p then (none, fs)
  else (some fs.nextHandle,
    { fs with
      nextHandle := fs.nextHandle + 1
      openHandles := fs.nextHandle :: fs.openHandles
      files := if (statF fs.files p).isSome then fs.files else (p, ⟨0, false⟩) :: fs.files })

/-- File.Close: the handle stops being open. -/
def closeFile (fs : FS) (h : Nat) : FS :=
  { fs with openHandles := fs.openHandles.erase h }

/-- Creation of a plain file entry (what a successful O_CREATE open does to
the stat database). -/
def createFile (fs : FS) (p : String) : FS :=
  { fs with files := (p, ⟨0, false⟩) :: fs.files }

/-! ### Collision-suffix name search (shared by newlogfile and newDumpFile) -/

/-- The candidate name with collision suffix n: stem_n.log. -/
def suffixName (stem : String) (n : Nat) : String :=
  stem ++ "_" ++ natDec n ++ ".log"

/-- The for-loop of newlogfile / newDumpFile: starting at suffix n, walk
upward while the candidate exists; fuel bounds the walk. -/
def findFreeAux (fs : FS) (stem : String) : Nat → Nat → Nat
  | n, 0 => n
  | n, fuel + 1 =>
      if isFileExist fs (suffixName stem n) then findFreeAux fs stem (n + 1) fuel else n

/-- The name-choice logic of newlogfile / newDumpFile: the bare stem.log if
unused, otherwise the first free suffixed name starting from _1. -/
def chooseName (fs : FS) (stem : String) : String :=
  if isFileExist fs (stem ++ ".log") then
    suffixName stem (findFreeAux fs stem 1 (fs.files.length + 1))
  else stem ++ ".log"

/-! ### The LOG_FILE structure and its operations -/

/-- The LOG_FILE structure: directory, base name, timestamp of the last
rotation, resolved current path, and the open handle (none models a nil
\*os.File). The log.Logger field carries no state of its own here. -/
structure LOG_FILE where
  log_dir : String
  log_filename : String
  timestamp : GoTime
  logfilepath : String
  logfile : Option Nat

/-- The dated directory newlogfile builds: log_dir/YYYY-MM-DD/ (note the
trailing separator). -/
def LOG_FILE.dateDir (f : LOG_FILE) : String :=
  f.log_dir ++ "/" ++ pad 4 f.timestamp.year ++ "-" ++ pad 2 f.timestamp.month ++ "-" ++
    pad 2 f.timestamp.day ++ "/"

/-- The file-name stem newlogfile builds: Sprintf with %s/%s.%02d_%02d_%02d
applied to the dated directory (which already ends in a separator), so the
stem carries a double separator. -/
def LOG_FILE.logStem (f : LOG_FILE) : String :=
  f.dateDir ++ "/" ++ f.log_filename ++ "." ++ pad 2 f.timestamp.hour ++ "_" ++
    pad 2 f.timestamp.minute ++ "_" ++ pad 2 f.timestamp.second

/-- newlogfile: ensure the dated directory, then pick the first unused name. -/
def LOG_FILE.newlogfile (fs : FS) (f : LOG_FILE) : String × FS :=
  let fs1 := mkdirAll fs f.dateDir
  (chooseName fs1 f.logStem, fs1)

/-- checkFileDate: the wall-clock day-of-year differs from the stored one. -/
def LOG_FILE.checkFileDate (f : LOG_FILE) (now : GoTime) : Bool :=
  if now.yearDay ≠ f.timestamp.yearDay then true else false

/-- logMaxSize = 512 * 1024 * 1024. -/
def logMaxSize : Int := 512 * 1024 * 1024

/-- checkFileSize: stat the current path; on stat failure report false,
otherwise compare the size against logMaxSize. -/
def LOG_FILE.checkFileSize (fs : FS) (f : LOG_FILE) : Bool :=
  match statF fs.files f.logfilepath with
  | none => false
  | some i => if i.size ≥ logMaxSize then true else false

/-- checkFileExist: true when the current path is NOT an existing file. -/
def LOG_FILE.checkFileExist (fs : FS) (f : LOG_FILE) : Bool :=
  if !isFileExist fs f.logfilepath then true else false

/-- isMustRename: the three checks in order; when all pass, MkdirAll the log
directory as a side effect and report false. -/
def LOG_FILE.isMustRename (fs : FS) (f : LOG_FILE) (now : GoTime) : Bool × FS :=
  if f.checkFileDate now then (true, fs)
  else if LOG_FILE.checkFileSize fs f then (true, fs)
  else if LOG_FILE.checkFileExist fs f then (true, fs)
  else (false, mkdirAll fs f.log_dir)

/-- rename: stamp the current time, compute the new name, close the old
handle if any, then open the new file ignoring the error; the handle and
path fields are replaced with whatever the open produced. -/
def LOG_FILE.rename (fs : FS) (f : LOG_FILE) (now : GoTime) : LOG_FILE × FS :=
  let f1 := { f with timestamp := now }
  let nd := LOG_FILE.newlogfile fs f1
  let fs2 := match f1.logfile with
    | some h => closeFile nd.2 h
    | none => nd.2
  let op := openFile fs2 nd.1
  ({ f1 with logfile := op.1, logfilepath := nd.1 }, op.2)

/-! ### Crash capture -/

/-- The dump directory: ./exceptions/YYYY-MM-DD/ (trailing separator). -/
def dumpDir (now : GoTime) : String :=
  "./exceptions/" ++ pad 4 now.year ++ "-" ++ pad 2 now.month ++ "-" ++ pad 2 now.day ++ "/"

/-- The dump-name stem: dir followed directly by exceptions.HH_MM_SS
(single separator: the directory string already ends in one and the
Sprintf verb here adds none). -/
def dumpStem (now : GoTime) : String :=
  dumpDir now ++ "exceptions." ++ pad 2 now.hour ++ "_" ++ pad 2 now.minute ++ "_" ++
    pad 2 now.second

/-- newDumpFile: ensure the dump directory, then pick the first unused name. -/
def newDumpFile (fs : FS) (now : GoTime) : String × FS :=
  let fs1 := mkdirAll fs (dumpDir now)
  (chooseName fs1 (dumpStem now), fs1)

/-- The 79-character delimiter line of the exception block. -/
def eqLine : String := String.mk (List.replicate 79 '=')

/-- The trailing tabs after the fault value in the exception block. -/
def tabs19 : String := String.mk (List.replicate 19 (Char.ofNat 9))

/-- The delimited block CatchException writes: delimiter, EXCEPTION and the
fault value, delimiter, then the captured stack trace. -/
def exceptionBlock (fault stack : String) : String :=
  "\n" ++ eqLine ++ "\nEXCEPTION: " ++ fault ++ tabs19 ++ "\n" ++ eqLine ++ "\t\t\n" ++ stack

/-- The observable result of one CatchException activation: the fault that
escapes past it (always none), the dump file written (path and content),
the console mirror, and the filesystem afterwards. -/
structure CatchResult where
  propagated : Option String
  fileWrite : Option (String × String)
  consoleOut : Option String
  fs : FS

/-- CatchException: recover the in-flight fault if any; build the dump path;
open it (silently giving up on failure); write the block to the file via the
dedicated logger and mirror it with fmt.Println, which does not consult the
console-enable flag. Println appends one newline to the block on each sink. -/
def CatchException (fault : Option String) (stack : String) (fs : FS)
    (_logConsole : Bool) (now : GoTime) : CatchResult :=
  match fault with
  | none => { propagated := none, fileWrite := none, consoleOut := none, fs := fs }
  | some v =>
      match openFile (newDumpFile fs now).2 (newDumpFile fs now).1 with
      | (none, fs3) => { propagated := none, fileWrite := none, consoleOut := none, fs := fs3 }
      | (some h, fs3) =>
          { propagated := none
            fileWrite := some ((newDumpFile fs now).1, exceptionBlock v stack ++ "\n")
            consoleOut := some (exceptionBlock v stack ++ "\n")
            fs := closeFile fs3 h }

/-! ### Initialize -/

/-- Initialize: read the last byte of fileDir unconditionally to strip one
trailing separator (the read panics with an index-out-of-range error on the
empty string, before any filesystem operation), build the handle, create the
first log file, and panic if that open fails. The returned FS is the state
after the call, also on a panic. -/
def Initialize (fs : FS) (fileDir fileName : String) (now : GoTime) :
    Except String LOG_FILE × FS :=
  if fileDir.data.length = 0 then (.error "runtime error: index out of range", fs)
  else
    let lastc := fileDir.data.getLastD ' '
    let dir := if lastc = '\\' || lastc = '/' then String.mk fileDir.data.dropLast
      else fileDir
    let f0 : LOG_FILE :=
      { log_dir := dir, log_filename := fileName, timestamp := now,
        logfilepath := "", logfile := none }
    let nd := LOG_FILE.newlogfile fs f0
    let op := openFile nd.2 nd.1
    match op.1 with
    | none => (.error "panic from open failure", op.2)
    | some h => (.ok { f0 with logfile := some h, logfilepath := nd.1 }, op.2)

/-! ### Lemmas about the emission model -/

/-- The console line of a dispatched record, as seen from a call result. -/
def consoleOf (r : CallResult) : Option String :=
  match r.emitted with
  | some g => g.consoleLine
  | none => none

/-- The file line of a dispatched record, as seen from a call result. -/
def fileOf (r : CallResult) : Option String :=
  match r.emitted with
  | some g => g.fileLine
  | none => none

theorem plainEmit_isSome (st : EmitState) (lvl : LEVEL) (body : String) :
    (plainEmit st lvl none body).emitted.isSome = levelLe st.logLevel lvl := by
  cases h : levelLe st.logLevel lvl <;> simp [plainEmit, protect, h]

theorem plainEmit_ok (st : EmitState) (lvl : LEVEL) (inj : Option String) (body : String) :
    (plainEmit st lvl inj body).outcome = .ok () := by
  cases h : levelLe st.logLevel lvl <;> cases inj <;> simp [plainEmit, protect, h]

theorem verboseEmit_isSome (v : Verbose) (st : EmitState) (lvl : LEVEL) (body : String) :
    (verboseEmit v st lvl none body).emitted.isSome = v := by
  cases v <;> simp [verboseEmit, protect]

theorem verboseEmit_ok (v : Verbose) (st : EmitState) (lvl : LEVEL) (inj : Option String)
    (body : String) : (verboseEmit v st lvl inj body).outcome = .ok () := by
  cases v <;> cases inj <;> simp [verboseEmit, protect]

theorem plainEmit_console (st : EmitState) (lvl : LEVEL) (body : String) :
    (consoleOf (plainEmit st lvl none body)).isSome =
      (st.logConsole && levelLe st.logLevel lvl) := by
  cases h : levelLe st.logLevel lvl <;> cases hc : st.logConsole <;>
    simp [plainEmit, protect, consoleOf, emitBody, console, h, hc]

theorem verboseEmit_console (v : Verbose) (st : EmitState) (lvl : LEVEL) (body : String) :
    (consoleOf (verboseEmit v st lvl none body)).isSome = (st.logConsole && v) := by
  cases v <;> cases hc : st.logConsole <;>
    simp [verboseEmit, protect, consoleOf, emitBody, console, hc]

theorem plainEmit_file_flag (st : EmitState) (lvl : LEVEL) (body : String) (b1 b2 : Bool) :
    fileOf (plainEmit { st with logConsole := b1 } lvl none body) =
      fileOf (plainEmit { st with logConsole := b2 } lvl none body) := by
  cases h : levelLe st.logLevel lvl <;>
    simp [plainEmit, protect, fileOf, emitBody, h]

theorem plainEmit_gate_flag (st : EmitState) (lvl : LEVEL) (body : String) (b1 b2 : Bool) :
    (plainEmit { st with logConsole := b1 } lvl none body).emitted.isSome =
      (plainEmit { st with logConsole := b2 } lvl none body).emitted.isSome := by
  rw [plainEmit_isSome, plainEmit_isSome]

theorem verboseEmit_file_flag (v : Verbose) (st : EmitState) (lvl : LEVEL) (body : String)
    (b1 b2 : Bool) :
    fileOf (verboseEmit v { st with logConsole := b1 } lvl none body) =
      fileOf (verboseEmit v { st with logConsole := b2 } lvl none body) := by
  cases v <;> simp [verboseEmit, protect, fileOf, emitBody]

/-! ### Lemmas about the collision-suffix name search -/

theorem suffixName_inj {stem : String} {n m : Nat}
    (h : suffixName stem n = suffixName stem m) : n = m := by
  have hd := congrArg String.data h
  simp only [suffixName, str_data_append, List.append_assoc] at hd
  have h1 := List.append_cancel_left hd
  have h2 := List.append_cancel_left h1
  have h3 := List.append_cancel_right h2
  exact natDec_inj (str_ext h3)

theorem natDec_ne_nil (n : Nat) : (natDec n).data ≠ [] := by
  unfold natDec
  by_cases h : n = 0
  · subst h; decide
  · simp only [h, if_false]
    show (natDecAux (n + 1) n).reverse ≠ []
    simp [natDecAux, h]

theorem base_ne_suffix (stem : String) (n : Nat) : stem ++ ".log" ≠ suffixName stem n := by
  intro h
  have hd := congrArg (fun s => s.data.length) h
  simp only [suffixName, str_data_append, List.length_append] at hd
  have hne := natDec_ne_nil n
  have hpos : 0 < (natDec n).data.length := List.length_pos.mpr hne
  have h4 : (".log" : String).data.length = 4 := rfl
  have h1 : ("_" : String).data.length = 1 := rfl
  rw [h4, h1] at hd
  omega

theorem statF_mem {l : List (String × FileInfo)} {p : String} {i : FileInfo}
    (h : statF l p = some i) : p ∈ l.map Prod.fst := by
  induction l with
  | nil => simp [statF] at h
  | cons a r ih =>
      obtain ⟨q, j⟩ := a
      by_cases hq : q = p
      · subst hq; simp
      · simp only [statF, hq, if_false] at h
        simpa using Or.inr (ih h)

theorem isFileExist_mem {fs : FS} {p : String} (h : isFileExist fs p = true) :
    p ∈ fs.files.map Prod.fst := by
  unfold isFileExist at h
  cases hs : statF fs.files p with
  | none => rw [hs] at h; simp at h
  | some i => exact statF_mem hs

theorem exists_free (fs : FS) (stem : String) (n : Nat) :
    ∃ k, k < fs.files.length + 1 ∧ isFileExist fs (suffixName stem (n + k)) = false := by
  by_contra hc
  push_neg at hc
  have hall : ∀ k, k < fs.files.length + 1 →
      isFileExist fs (suffixName stem (n + k)) = true := by
    intro k hk
    have := hc k hk
    cases hx : isFileExist fs (suffixName stem (n + k)) with
    | false => exact absurd hx this
    | true => rfl
  have hinj : Function.Injective (fun k => suffixName stem (n + k)) := by
    intro k1 k2 hk
    have := suffixName_inj hk
    omega
  have hnodup : ((List.range (fs.files.length + 1)).map
      (fun k => suffixName stem (n + k))).Nodup :=
    List.Nodup.map hinj (List.nodup_range _)
  have hsub : ((List.range (fs.files.length + 1)).map (fun k => suffixName stem (n + k))) ⊆
      fs.files.map Prod.fst := by
    intro x hx
    obtain ⟨k, hk, hkx⟩ := List.mem_map.mp hx
    subst hkx
    exact isFileExist_mem (hall k (List.mem_range.mp hk))
  have hle := (List.subperm_of_subset hnodup hsub).length_le
  simp at hle

theorem findFreeAux_le (fs : FS) (stem : String) :
    ∀ fuel n, n ≤ findFreeAux fs stem n fuel := by
  intro fuel
  induction fuel with
  | zero => intro n; simp [findFreeAux]
  | succ fuel ih =>
      intro n
      by_cases h : isFileExist fs (suffixName stem n) = true
      · have := ih (n + 1)
        simp only [findFreeAux, h, if_true]
        omega
      · simp [findFreeAux, h]

theorem findFreeAux_spec (fs : FS) (stem : String) :
    ∀ fuel n, (∃ k, k < fuel ∧ isFileExist fs (suffixName stem (n + k)) = false) →
      isFileExist fs (suffixName stem (findFreeAux fs stem n fuel)) = false ∧
      (∀ m, n ≤ m → m < findFreeAux fs stem n fuel →
        isFileExist fs (suffixName stem m) = true) := by
  intro fuel
  induction fuel with
  | zero =>
      intro n h
      obtain ⟨k, hk, _⟩ := h
      omega
  | succ fuel ih =>
      intro n h
      obtain ⟨k, hk, hfree⟩ := h
      by_cases hex : isFileExist fs (suffixName stem n) = true
      · have hk0 : k ≠ 0 := by
          intro h0
          subst h0
          rw [Nat.add_zero] at hfree
          rw [hfree] at hex
          cases hex
        have hres := ih (n + 1) ⟨k - 1, by omega, by
          have heq : n + 1 + (k - 1) = n + k := by omega
          rw [heq]; exact hfree⟩
        simp only [findFreeAux, hex, if_true]
        refine ⟨hres.1, ?_⟩
        intro m hm1 hm2
        by_cases hmn : m = n
        · subst hmn; exact hex
        · exact hres.2 m (by omega) hm2
      · have hex2 : isFileExist fs (suffixName stem n) = false := by
          cases hx : isFileExist fs (suffixName stem n) with
          | false => rfl
          | true => exact absurd hx hex
        have hred : findFreeAux fs stem n (fuel + 1) = n := by
          simp [findFreeAux, hex2]
        rw [hred]
        exact ⟨hex2, fun m h1 h2 => by omega⟩

theorem chooseName_spec (fs : FS) (stem : String) :
    isFileExist fs (chooseName fs stem) = false ∧
    (isFileExist fs (stem ++ ".log") = false → chooseName fs stem = stem ++ ".log") ∧
    (isFileExist fs (stem ++ ".log") = true →
      ∃ n, 1 ≤ n ∧ chooseName fs stem = suffixName stem n ∧
        isFileExist fs (suffixName stem n) = false ∧
        ∀ m, 1 ≤ m → m < n → isFileExist fs (suffixName stem m) = true) := by
  have hex := exists_free fs stem 1
  have hspec := findFreeAux_spec fs stem (fs.files.length + 1) 1 hex
  have hle := findFreeAux_le fs stem (fs.files.length + 1) 1
  by_cases h : isFileExist fs (stem ++ ".log") = true
  · refine ⟨?_, ?_, ?_⟩
    · simp only [chooseName, h, if_true]
      exact hspec.1
    · intro hfalse; rw [h] at hfalse; cases hfalse
    · intro _
      exact ⟨findFreeAux fs stem 1 (fs.files.length + 1), hle, by simp [chooseName, h],
        hspec.1, fun m h1 h2 => hspec.2 m h1 h2⟩
  · have h2 : isFileExist fs (stem ++ ".log") = false := by
      cases hx : isFileExist fs (stem ++ ".log") with
      | false => rfl
      | true => exact absurd hx h
    refine ⟨?_, fun _ => by simp [chooseName, h2], ?_⟩
    · simp [chooseName, h2]
    · intro htrue; rw [h2] at htrue; cases htrue

theorem chooseName_shape (fs : FS) (stem : String) :
    chooseName fs stem = stem ++ ".log" ∨
    ∃ n, 1 ≤ n ∧ chooseName fs stem = suffixName stem n := by
  by_cases h : isFileExist fs (stem ++ ".log") = true
  · right
    exact ⟨findFreeAux fs stem 1 (fs.files.length + 1),
      findFreeAux_le fs stem (fs.files.length + 1) 1, by simp [chooseName, h]⟩
  · left
    have h2 : isFileExist fs (stem ++ ".log") = false := by
      cases hx : isFileExist fs (stem ++ ".log") with
      | false => rfl
      | true => exact absurd hx h
    simp [chooseName, h2]

theorem isFileExist_createFile (fs : FS) (p q : String) :
    isFileExist (createFile fs p) q = if p = q then true else isFileExist fs q := by
  by_cases h : p = q <;> simp [isFileExist, createFile, statF, h]

/-! ### Lemmas about the filesystem state -/

theorem mkdirAll_mem (fs : FS) (d : String) : d ∈ (mkdirAll fs d).dirs := by
  by_cases h : d ∈ fs.dirs <;> simp [mkdirAll, h]

theorem mkdirAll_openFails (fs : FS) (d : String) :
    (mkdirAll fs d).openFails = fs.openFails := by
  by_cases h : d ∈ fs.dirs <;> simp [mkdirAll, h]

theorem closeFile_openFails (fs : FS) (h : Nat) :
    (closeFile fs h).openFails = fs.openFails := rfl

/-! ### Lemmas about the rotation checks -/

theorem checkFileDate_iff (f : LOG_FILE) (now : GoTime) :
    f.checkFileDate now = true ↔ now.yearDay ≠ f.timestamp.yearDay := by
  unfold LOG_FILE.checkFileDate
  by_cases h : now.yearDay = f.timestamp.yearDay <;> simp [h]

theorem checkFileSize_iff (fs : FS) (f : LOG_FILE) :
    LOG_FILE.checkFileSize fs f = true ↔
      ∃ i, statF fs.files f.logfilepath = some i ∧ (512 * 1024 * 1024 : Int) ≤ i.size := by
  unfold LOG_FILE.checkFileSize
  cases hs : statF fs.files f.logfilepath with
  | none => simp
  | some i =>
      by_cases hi : i.size ≥ logMaxSize
      · simp only [hi, if_true]
        constructor
        · intro _
          exact ⟨i, rfl, hi⟩
        · intro _; trivial
      · simp only [hi, if_false]
        constructor
        · intro hc; cases hc
        · rintro ⟨j, hj, hsz⟩
          injection hj with hj
          subst hj
          exact absurd hsz hi

theorem checkFileExist_iff (fs : FS) (f : LOG_FILE) :
    LOG_FILE.checkFileExist fs f = true ↔ isFileExist fs f.logfilepath = false := by
  unfold LOG_FILE.checkFileExist
  cases h : isFileExist fs f.logfilepath <;> simp [h]

theorem isMustRename_fst (fs : FS) (f : LOG_FILE) (now : GoTime) :
    (LOG_FILE.isMustRename fs f now).1 =
      (f.checkFileDate now || LOG_FILE.checkFileSize fs f ||
        LOG_FILE.checkFileExist fs f) := by
  unfold LOG_FILE.isMustRename
  cases h1 : f.checkFileDate now <;> cases h2 : LOG_FILE.checkFileSize fs f <;>
    cases h3 : LOG_FILE.checkFileExist fs f <;> simp [h1, h2, h3]

/-! ### Sample states for concrete evaluations -/

/-- A concrete wall-clock instant: 2015-05-16 10:22:33, day 136 of the year. -/
def t0 : GoTime :=
  { year := 2015, month := 5, day := 16, yearDay := 136, hour := 10, minute := 22,
    second := 33, nanosecond := 0 }

/-- A concrete emission state with the default configuration: threshold ALL,
console on, no console prefix, global handle open. -/
def st0 : EmitState :=
  { logLevel := .ALL, logConsole := true, consolePre := "", hasLogFile := true,
    now := t0, callerFile := "main.go", callerLine := 42 }

/-- An empty filesystem on which every open succeeds. -/
def fs0 : FS :=
  { files := [], dirs := [], openHandles := [], nextHandle := 0, openFails := fun _ => false }

/-! ### Claims about the threshold gate and the dispatcher -/

/-- C1: each of the fifteen plain emission functions Debug/Info/Warn/Error/Fatal
and their f and ln variants emits its record exactly when the current threshold
T satisfies T <= S for its severity S, under every state (in particular,
threshold ALL always passes every gate and threshold FATAL passes only the
Fatal gates, by instantiating the threshold). -/
theorem threshold_gate_iff_le (st : EmitState) (a fb : String) (as : List String) :
    ((Debug st none a).emitted.isSome = decide (st.logLevel.toNat ≤ LEVEL.DEBUG.toNat)) ∧
    ((Info st none a).emitted.isSome = decide (st.logLevel.toNat ≤ LEVEL.INFO.toNat)) ∧
    ((Warn st none a).emitted.isSome = decide (st.logLevel.toNat ≤ LEVEL.WARN.toNat)) ∧
    ((Error st none a).emitted.isSome = decide (st.logLevel.toNat ≤ LEVEL.ERROR.toNat)) ∧
    ((Fatal st none a).emitted.isSome = decide (st.logLevel.toNat ≤ LEVEL.FATAL.toNat)) ∧
    ((Debugf st none fb).emitted.isSome = decide (st.logLevel.toNat ≤ LEVEL.DEBUG.toNat)) ∧
    ((Infof st none fb).emitted.isSome = decide (st.logLevel.toNat ≤ LEVEL.INFO.toNat)) ∧
    ((Warnf st none fb).emitted.isSome = decide (st.logLevel.toNat ≤ LEVEL.WARN.toNat)) ∧
    ((Errorf st none fb).emitted.isSome = decide (st.logLevel.toNat ≤ LEVEL.ERROR.toNat)) ∧
    ((Fatalf st none fb).emitted.isSome = decide (st.logLevel.toNat ≤ LEVEL.FATAL.toNat)) ∧
    ((Debugln st none as).emitted.isSome = decide (st.logLevel.toNat ≤ LEVEL.DEBUG.toNat)) ∧
    ((Infoln st none as).emitted.isSome = decide (st.logLevel.toNat ≤ LEVEL.INFO.toNat)) ∧
    ((Warnln st none as).emitted.isSome = decide (st.logLevel.toNat ≤ LEVEL.WARN.toNat)) ∧
    ((Errorln st none as).emitted.isSome = decide (st.logLevel.toNat ≤ LEVEL.ERROR.toNat)) ∧
    ((Fatalln st none as).emitted.isSome = decide (st.logLevel.toNat ≤ LEVEL.FATAL.toNat)) :=
  ⟨plainEmit_isSome st .DEBUG (sprintln1 a), plainEmit_isSome st .INFO (sprintln1 a),
    plainEmit_isSome st .WARN (sprintln1 a), plainEmit_isSome st .ERROR (sprintln1 a),
    plainEmit_isSome st .FATAL (sprintln1 a), plainEmit_isSome st .DEBUG fb,
    plainEmit_isSome st .INFO fb, plainEmit_isSome st .WARN fb,
    plainEmit_isSome st .ERROR fb, plainEmit_isSome st .FATAL fb,
    plainEmit_isSome st .DEBUG (sprintlnList as), plainEmit_isSome st .INFO (sprintlnList as),
    plainEmit_isSome st .WARN (sprintlnList as), plainEmit_isSome st .ERROR (sprintlnList as),
    plainEmit_isSome st .FATAL (sprintlnList as)⟩

/-- C2: evaluation of the code at the failing input: with the default
threshold ALL, the verbose gate V(DEBUG) computes logLevel >= level, which is
false, so V(DEBUG).Debug drops its record, while the plain Debug function at
the very same state emits (ALL <= DEBUG); the two gates disagree, against the
claim that V applies the same filter decision as the plain entry points. -/
theorem verbose_gate_disagrees_with_plain :
    V .ALL .DEBUG = false ∧
    (Verbose.Debug (V .ALL .DEBUG) st0 none "x").emitted = none ∧
    (Debug st0 none "x").emitted.isSome = true := by
  refine ⟨rfl, rfl, ?_⟩
  rw [show (Debug st0 none "x") = plainEmit st0 .DEBUG none (sprintln1 "x") from rfl,
    plainEmit_isSome]
  rfl

/-- C3: none of the thirty emission entry points (the fifteen package-level
functions and the fifteen Verbose methods) lets a panic escape to its caller:
under every state, every argument and every injected internal failure, the
caller-visible outcome is the normal return, the recovery happening inside
the call (the protect wrapper embedding defer catchError). -/
theorem no_emission_entry_point_propagates (st : EmitState) (inj : Option String)
    (v : Verbose) (a fb : String) (as : List String) :
    ((Debug st inj a).outcome = .ok ()) ∧
    ((Info st inj a).outcome = .ok ()) ∧
    ((Warn st inj a).outcome = .ok ()) ∧
    ((Error st inj a).outcome = .ok ()) ∧
    ((Fatal st inj a).outcome = .ok ()) ∧
    ((Debugf st inj fb).outcome = .ok ()) ∧
    ((Infof st inj fb).outcome = .ok ()) ∧
    ((Warnf st inj fb).outcome = .ok ()) ∧
    ((Errorf st inj fb).outcome = .ok ()) ∧
    ((Fatalf st inj fb).outcome = .ok ()) ∧
    ((Debugln st inj as).outcome = .ok ()) ∧
    ((Infoln st inj as).outcome = .ok ()) ∧
    ((Warnln st inj as).outcome = .ok ()) ∧
    ((Errorln st inj as).outcome = .ok ()) ∧
    ((Fatalln st inj as).outcome = .ok ()) ∧
    ((Verbose.Debug v st inj a).outcome = .ok ()) ∧
    ((Verbose.Info v st inj a).outcome = .ok ()) ∧
    ((Verbose.Warn v st inj a).outcome = .ok ()) ∧
    ((Verbose.Error v st inj a).outcome = .ok ()) ∧
    ((Verbose.Fatal v st inj a).outcome = .ok ()) ∧
    ((Verbose.Debugf v st inj fb).outcome = .ok ()) ∧
    ((Verbose.Infof v st inj fb).outcome = .ok ()) ∧
    ((Verbose.Warnf v st inj fb).outcome = .ok ()) ∧
    ((Verbose.Errorf v st inj fb).outcome = .ok ()) ∧
    ((Verbose.Fatalf v st inj fb).outcome = .ok ()) ∧
    ((Verbose.Debugln v st inj as).outcome = .ok ()) ∧
    ((Verbose.Infoln v st inj as).outcome = .ok ()) ∧
    ((Verbose.Warnln v st inj as).outcome = .ok ()) ∧
    ((Verbose.Errorln v st inj as).outcome = .ok ()) ∧
    ((Verbose.Fatalln v st inj as).outcome = .ok ()) :=
  ⟨plainEmit_ok st .DEBUG inj _, plainEmit_ok st .INFO inj _, plainEmit_ok st .WARN inj _,
    plainEmit_ok st .ERROR inj _, plainEmit_ok st .FATAL inj _, plainEmit_ok st .DEBUG inj _,
    plainEmit_ok st .INFO inj _, plainEmit_ok st .WARN inj _, plainEmit_ok st .ERROR inj _,
    plainEmit_ok st .FATAL inj _, plainEmit_ok st .DEBUG inj _, plainEmit_ok st .INFO inj _,
    plainEmit_ok st .WARN inj _, plainEmit_ok st .ERROR inj _, plainEmit_ok st .FATAL inj _,
    verboseEmit_ok v st .DEBUG inj _, verboseEmit_ok v st .INFO inj _,
    verboseEmit_ok v st .WARN inj _, verboseEmit_ok v st .ERROR inj _,
    verboseEmit_ok v st .FATAL inj _, verboseEmit_ok v st .DEBUG inj _,
    verboseEmit_ok v st .INFO inj _, verboseEmit_ok v st .WARN inj _,
    verboseEmit_ok v st .ERROR inj _, verboseEmit_ok v st .FATAL inj _,
    verboseEmit_ok v st .DEBUG inj _, verboseEmit_ok v st .INFO inj _,
    verboseEmit_ok v st .WARN inj _, verboseEmit_ok v st .ERROR inj _,
    verboseEmit_ok v st .FATAL inj _⟩

/-- C9: console output and the threshold are two independent gates. For every
severity and state, a plain emission call produces console output exactly when
the console flag is on AND its threshold gate passes; flipping the flag never
changes the file line nor the gate decision; a Verbose method produces console
output exactly when the flag is on AND its precomputed gate is on. The thirty
entry points are each definitionally an instance of plainEmit or verboseEmit
at their fixed severity, as the trailing equations record. -/
theorem console_and_threshold_independent (st : EmitState) (v : Verbose) (lvl : LEVEL)
    (inj : Option String) (body a fb : String) (as : List String) (b1 b2 : Bool) :
    ((consoleOf (plainEmit st lvl none body)).isSome =
      (st.logConsole && levelLe st.logLevel lvl)) ∧
    (fileOf (plainEmit { st with logConsole := b1 } lvl none body) =
      fileOf (plainEmit { st with logConsole := b2 } lvl none body)) ∧
    ((plainEmit { st with logConsole := b1 } lvl none body).emitted.isSome =
      (plainEmit { st with logConsole := b2 } lvl none body).emitted.isSome) ∧
    ((consoleOf (verboseEmit v st lvl none body)).isSome = (st.logConsole && v)) ∧
    (fileOf (verboseEmit v { st with logConsole := b1 } lvl none body) =
      fileOf (verboseEmit v { st with logConsole := b2 } lvl none body)) ∧
    (Debug st inj a = plainEmit st .DEBUG inj (sprintln1 a)) ∧
    (Info st inj a = plainEmit st .INFO inj (sprintln1 a)) ∧
    (Warn st inj a = plainEmit st .WARN inj (sprintln1 a)) ∧
    (Error st inj a = plainEmit st .ERROR inj (sprintln1 a)) ∧
    (Fatal st inj a = plainEmit st .FATAL inj (sprintln1 a)) ∧
    (Debugf st inj fb = plainEmit st .DEBUG inj fb) ∧
    (Infof st inj fb = plainEmit st .INFO inj fb) ∧
    (Warnf st inj fb = plainEmit st .WARN inj fb) ∧
    (Errorf st inj fb = plainEmit st .ERROR inj fb) ∧
    (Fatalf st inj fb = plainEmit st .FATAL inj fb) ∧
    (Debugln st inj as = plainEmit st .DEBUG inj (sprintlnList as)) ∧
    (Infoln st inj as = plainEmit st .INFO inj (sprintlnList as)) ∧
    (Warnln st inj as = plainEmit st .WARN inj (sprintlnList as)) ∧
    (Errorln st inj as = plainEmit st .ERROR inj (sprintlnList as)) ∧
    (Fatalln st inj as = plainEmit st .FATAL inj (sprintlnList as)) ∧
    (Verbose.Debug v st inj a = verboseEmit v st .DEBUG inj (sprintln1 a)) ∧
    (Verbose.Info v st inj a = verboseEmit v st .INFO inj (sprintln1 a)) ∧
    (Verbose.Warn v st inj a = verboseEmit v st .WARN inj (sprintln1 a)) ∧
    (Verbose.Error v st inj a = verboseEmit v st .ERROR inj (sprintln1 a)) ∧
    (Verbose.Fatal v st inj a = verboseEmit v st .FATAL inj (sprintln1 a)) ∧
    (Verbose.Debugf v st inj fb = verboseEmit v st .DEBUG inj fb) ∧
    (Verbose.Infof v st inj fb = verboseEmit v st .INFO inj fb) ∧
    (Verbose.Warnf v st inj fb = verboseEmit v st .WARN inj fb) ∧
    (Verbose.Errorf v st inj fb = verboseEmit v st .ERROR inj fb) ∧
    (Verbose.Fatalf v st inj fb = verboseEmit v st .FATAL inj fb) ∧
    (Verbose.Debugln v st inj as = verboseEmit v st .DEBUG inj (sprintlnList as)) ∧
    (Verbose.Infoln v st inj as = verboseEmit v st .INFO inj (sprintlnList as)) ∧
    (Verbose.Warnln v st inj as = verboseEmit v st .WARN inj (sprintlnList as)) ∧
    (Verbose.Errorln v st inj as = verboseEmit v st .ERROR inj (sprintlnList as)) ∧
    (Verbose.Fatalln v st inj as = verboseEmit v st .FATAL inj (sprintlnList as)) :=
  ⟨plainEmit_console st lvl body, plainEmit_file_flag st lvl body b1 b2,
    plainEmit_gate_flag st lvl body b1 b2, verboseEmit_console v st lvl body,
    verboseEmit_file_flag v st lvl body b1 b2,
    rfl, rfl, rfl, rfl, rfl, rfl, rfl, rfl, rfl, rfl, rfl, rfl, rfl, rfl, rfl,
    rfl, rfl, rfl, rfl, rfl, rfl, rfl, rfl, rfl, rfl, rfl, rfl, rfl, rfl, rfl⟩

/-! ### Claims about rotation, naming and initialization -/

/-- C4: isMustRename reports true exactly when the wall-clock day-of-year
differs from the stored timestamp's day-of-year, or the current log file
stats to a size of at least 512*1024*1024 bytes, or the current log file no
longer exists as a file on disk; and whenever it reports false it has ensured,
with idempotent MkdirAll semantics, that the log directory exists. -/
theorem isMustRename_characterization (fs : FS) (f : LOG_FILE) (now : GoTime) :
    ((LOG_FILE.isMustRename fs f now).1 = true ↔
      (now.yearDay ≠ f.timestamp.yearDay ∨
        (∃ i, statF fs.files f.logfilepath = some i ∧ (512 * 1024 * 1024 : Int) ≤ i.size) ∨
        isFileExist fs f.logfilepath = false)) ∧
    ((LOG_FILE.isMustRename fs f now).1 = false →
      f.log_dir ∈ (LOG_FILE.isMustRename fs f now).2.dirs) := by
  constructor
  · rw [isMustRename_fst]
    simp only [Bool.or_eq_true]
    rw [checkFileDate_iff, checkFileSize_iff, checkFileExist_iff]
    exact or_assoc
  · intro h
    rw [isMustRename_fst] at h
    simp only [Bool.or_eq_false_iff] at h
    obtain ⟨⟨h1, h2⟩, h3⟩ := h
    unfold LOG_FILE.isMustRename
    rw [h1, h2, h3]
    simpa using mkdirAll_mem fs f.log_dir

/-- Sample state for C4: same day, small file, file present: no rotation. -/
def c4FS : FS :=
  { files := [("p", ⟨100, false⟩)], dirs := [], openHandles := [], nextHandle := 0,
    openFails := fun _ => false }

/-- Sample handle for C4 and C5: current path p. -/
def c4F : LOG_FILE :=
  { log_dir := "d", log_filename := "b", timestamp := t0, logfilepath := "p",
    logfile := some 7 }

theorem isMustRename_characterization_witness :
    (LOG_FILE.isMustRename c4FS c4F t0).1 = false ∧
    c4F.log_dir ∈ (LOG_FILE.isMustRename c4FS c4F t0).2.dirs := by
  refine ⟨by decide, ?_⟩
  exact (isMustRename_characterization c4FS c4F t0).2 (by decide)

/-- Filesystem for C5: the current file p exists and every open fails. -/
def c5FS : FS :=
  { files := [("p", ⟨0, false⟩)], dirs := [], openHandles := [7], nextHandle := 8,
    openFails := fun _ => true }

/-- C5 counterexample: at a state where the handle holds open file 7 and the
open of the new log file fails, rename leaves the handle with NO open file
(logfile nil) and the old handle closed, not the previously held one, so the
claim that a failed rotation keeps the old handle in place is false. -/
theorem failed_rotation_loses_old_handle :
    c4F.logfile = some 7 ∧
    (LOG_FILE.rename c5FS c4F t0).1.logfile = none ∧
    7 ∉ (LOG_FILE.rename c5FS c4F t0).2.openHandles := by
  refine ⟨rfl, rfl, ?_⟩
  decide

/-- C5 amended: when opening the new log file during a rotation fails, the
previously open handle has already been closed before the open attempt and
the handle's file field becomes nil, so the system is left without a working
file; the failure itself is swallowed (no panic), the state being exactly
the close of the old handle. -/
theorem failed_rotation_leaves_nil_handle (fs : FS) (f : LOG_FILE) (now : GoTime) (h0 : Nat)
    (hl : f.logfile = some h0)
    (hfail : fs.openFails ((LOG_FILE.newlogfile fs { f with timestamp := now }).1) = true) :
    (LOG_FILE.rename fs f now).1.logfile = none ∧
    (LOG_FILE.rename fs f now).2 =
      closeFile (LOG_FILE.newlogfile fs { f with timestamp := now }).2 h0 := by
  have hpres : (LOG_FILE.newlogfile fs { f with timestamp := now }).2.openFails =
      fs.openFails := by
    show (mkdirAll fs _).openFails = fs.openFails
    exact mkdirAll_openFails fs _
  have hfail2 : (closeFile (LOG_FILE.newlogfile fs { f with timestamp := now }).2 h0).openFails
      ((LOG_FILE.newlogfile fs { f with timestamp := now }).1) = true := by
    rw [closeFile_openFails, hpres]
    exact hfail
  rw [hl] at hfail2
  unfold LOG_FILE.rename
  simp only [hl]
  unfold openFile
  rw [hfail2]
  simp

theorem failed_rotation_leaves_nil_handle_witness :
    (LOG_FILE.rename c5FS c4F t0).1.logfile = none ∧
    (LOG_FILE.rename c5FS c4F t0).2 =
      closeFile (LOG_FILE.newlogfile c5FS { c4F with timestamp := t0 }).2 7 :=
  failed_rotation_leaves_nil_handle c5FS c4F t0 7 rfl rfl

/-- Sample handle used where a LOG_FILE argument is needed concretely. -/
def sampleF : LOG_FILE :=
  { log_dir := "./log", log_filename := "srv", timestamp := t0, logfilepath := "",
    logfile := none }

/-- C6: the collision-suffix search shared by newlogfile and newDumpFile
picks the bare stem.log when unused, otherwise the suffixed name with the
SMALLEST unused index n >= 1 (every smaller suffix being in use); the chosen
name is never one that already exists; and a second computation after the
first chosen name has been created on disk yields a distinct name with a
strictly larger suffix index (deterministic, monotonic). The last two
equations record that newlogfile and newDumpFile are exactly this search on
their respective stems. -/
theorem collision_suffix_deterministic (fs : FS) (stem : String) (f : LOG_FILE)
    (now : GoTime) :
    isFileExist fs (chooseName fs stem) = false ∧
    (isFileExist fs (stem ++ ".log") = false → chooseName fs stem = stem ++ ".log") ∧
    (isFileExist fs (stem ++ ".log") = true →
      ∃ n, 1 ≤ n ∧ chooseName fs stem = suffixName stem n ∧
        ∀ m, 1 ≤ m → m < n → isFileExist fs (suffixName stem m) = true) ∧
    chooseName (createFile fs (chooseName fs stem)) stem ≠ chooseName fs stem ∧
    (∀ n1 n2, chooseName fs stem = suffixName stem n1 →
      chooseName (createFile fs (chooseName fs stem)) stem = suffixName stem n2 →
      n1 < n2) ∧
    (LOG_FILE.newlogfile fs f).1 = chooseName (mkdirAll fs f.dateDir) f.logStem ∧
    (newDumpFile fs now).1 = chooseName (mkdirAll fs (dumpDir now)) (dumpStem now) := by
  obtain ⟨hfree, hbase, hsuf⟩ := chooseName_spec fs stem
  obtain ⟨hfree2, hbase2, hsuf2⟩ := chooseName_spec (createFile fs (chooseName fs stem)) stem
  have hne : chooseName (createFile fs (chooseName fs stem)) stem ≠ chooseName fs stem := by
    intro he
    rw [he, isFileExist_createFile] at hfree2
    simp at hfree2
  refine ⟨hfree, hbase, fun ht => ?_, hne, ?_, rfl, rfl⟩
  · obtain ⟨n, hn1, hn2, _, hn4⟩ := hsuf ht
    exact ⟨n, hn1, hn2, hn4⟩
  · intro n1 n2 h1 h2
    have hq : chooseName fs stem ≠ suffixName stem n2 := by
      intro hqe
      exact hne (h2.trans hqe.symm)
    have hf2 : isFileExist (createFile fs (chooseName fs stem)) (suffixName stem n2) =
        false := by
      rw [← h2]; exact hfree2
    rw [isFileExist_createFile, if_neg hq] at hf2
    have hbase_exists : isFileExist fs (stem ++ ".log") = true := by
      cases hx : isFileExist fs (stem ++ ".log") with
      | true => rfl
      | false =>
          have hb := hbase hx
          rw [hb] at h1
          exact absurd h1 (base_ne_suffix stem n1)
    obtain ⟨n, hn1, hn2, _, hn4⟩ := hsuf hbase_exists
    have hnn : n = n1 := suffixName_inj (hn2.symm.trans h1)
    subst hnn
    have hbase_exists2 : isFileExist (createFile fs (chooseName fs stem))
        (stem ++ ".log") = true := by
      cases hx : isFileExist (createFile fs (chooseName fs stem)) (stem ++ ".log") with
      | true => rfl
      | false =>
          have hb := hbase2 hx
          rw [hb] at h2
          exact absurd h2 (base_ne_suffix stem n2)
    obtain ⟨n2a, hn2a1, hn2a2, _, _⟩ := hsuf2 hbase_exists2
    have hnn2 : n2a = n2 := suffixName_inj (hn2a2.symm.trans h2)
    subst hnn2
    have hne12 : n ≠ n2a := by
      intro he
      exact hq (he ▸ h1)
    by_contra hlt
    push_neg at hlt
    have hlt2 : n2a < n := by omega
    have hmem := hn4 n2a hn2a1 hlt2
    rw [hmem] at hf2
    cases hf2

/-- Filesystem for the C6 witness: the base name and the first suffix are in
use, so the search must pick the suffix _2 with every smaller suffix used. -/
def c6FS : FS :=
  { files := [("a.log", ⟨0, false⟩), ("a_1.log", ⟨0, false⟩)], dirs := [], openHandles := [],
    nextHandle := 0, openFails := fun _ => false }

theorem collision_suffix_deterministic_witness :
    isFileExist c6FS ("a" ++ ".log") = true ∧
    (∃ n, 1 ≤ n ∧ chooseName c6FS "a" = suffixName "a" n ∧
      ∀ m, 1 ≤ m → m < n → isFileExist c6FS (suffixName "a" m) = true) :=
  ⟨by decide, (collision_suffix_deterministic c6FS "a" sampleF t0).2.2.1 (by decide)⟩

/-- C7: when CatchException runs with a fault in flight and the dump file can
be opened, it writes the dump file at the path newDumpFile computes (of shape
./exceptions/YYYY-MM-DD/exceptions.HH_MM_SS.log, with a _N suffix, N >= 1, on
collision), whose content embeds both the fault value and the captured stack
trace; it mirrors the very same block to the console whatever the value of
the console-enable flag; and no fault ever propagates past the capture point,
under any inputs at all (last conjunct). -/
theorem catch_exception_spec (fs : FS) (v stack : String) (b : Bool) (now : GoTime)
    (hopen : fs.openFails ((newDumpFile fs now).1) = false) :
    (CatchException (some v) stack fs b now).propagated = none ∧
    (CatchException (some v) stack fs b now).fileWrite =
      some ((newDumpFile fs now).1, exceptionBlock v stack ++ "\n") ∧
    (CatchException (some v) stack fs b now).consoleOut =
      some (exceptionBlock v stack ++ "\n") ∧
    (CatchException (some v) stack fs false now).consoleOut =
      (CatchException (some v) stack fs true now).consoleOut ∧
    (∃ a c, exceptionBlock v stack = a ++ v ++ c) ∧
    (∃ a, exceptionBlock v stack = a ++ stack) ∧
    ((newDumpFile fs now).1 = dumpStem now ++ ".log" ∨
      ∃ n, 1 ≤ n ∧ (newDumpFile fs now).1 = suffixName (dumpStem now) n) ∧
    (∀ fa fs2 b2 stack2 now2,
      (CatchException fa stack2 fs2 b2 now2).propagated = none) := by
  have hcond : (newDumpFile fs now).2.openFails ((newDumpFile fs now).1) = false := by
    have he : (newDumpFile fs now).2 = mkdirAll fs (dumpDir now) := rfl
    rw [he, mkdirAll_openFails]
    exact hopen
  have hred : ∀ b2 : Bool, ∃ fsr, CatchException (some v) stack fs b2 now =
      { propagated := none
        fileWrite := some ((newDumpFile fs now).1, exceptionBlock v stack ++ "\n")
        consoleOut := some (exceptionBlock v stack ++ "\n")
        fs := fsr } := by
    intro b2
    simp only [CatchException]
    split
    · rename_i fs3 heq
      exfalso
      unfold openFile at heq
      rw [hcond] at heq
      simp at heq
    · rename_i h fs3 heq
      exact ⟨closeFile fs3 h, rfl⟩
  obtain ⟨fsr, he⟩ := hred b
  obtain ⟨fsrF, heF⟩ := hred false
  obtain ⟨fsrT, heT⟩ := hred true
  refine ⟨by rw [he], by rw [he], by rw [he], by rw [heF, heT], ?_, ?_, ?_, ?_⟩
  · refine ⟨"\n" ++ eqLine ++ "\nEXCEPTION: ",
      tabs19 ++ "\n" ++ eqLine ++ "\t\t\n" ++ stack, ?_⟩
    apply str_ext
    simp [exceptionBlock, str_data_append, List.append_assoc]
  · refine ⟨"\n" ++ eqLine ++ "\nEXCEPTION: " ++ v ++ tabs19 ++ "\n" ++ eqLine ++ "\t\t\n", ?_⟩
    apply str_ext
    simp [exceptionBlock, str_data_append, List.append_assoc]
  · exact chooseName_shape (mkdirAll fs (dumpDir now)) (dumpStem now)
  · intro fa fs2 b2 stack2 now2
    cases fa with
    | none => rfl
    | some v2 =>
        simp only [CatchException]
        split <;> rfl

theorem catch_exception_spec_witness :
    fs0.openFails ((newDumpFile fs0 t0).1) = false ∧
    (CatchException (some "boom") "trace" fs0 false t0).propagated = none ∧
    (CatchException (some "boom") "trace" fs0 false t0).fileWrite =
      some ((newDumpFile fs0 t0).1, exceptionBlock "boom" "trace" ++ "\n") :=
  ⟨rfl, (catch_exception_spec fs0 "boom" "trace" false t0 rfl).1,
    (catch_exception_spec fs0 "boom" "trace" false t0 rfl).2.1⟩

/-- C8 counterexample: on an empty filesystem with log directory ./log, base
name srv and timestamp 2015-05-16 10:22:33, newlogfile resolves the path with
TWO consecutive separators between the dated directory and the file name
(the dated directory string ends in a separator and the Sprintf verb adds
another), so the path does not have exactly one separator between each
component as the claim states. -/
theorem rotated_path_double_separator :
    (LOG_FILE.newlogfile fs0 sampleF).1 = "./log/2015-05-16//srv.10_22_33.log" ∧
    (LOG_FILE.newlogfile fs0 sampleF).1 ≠ "./log/2015-05-16/srv.10_22_33.log" := by
  constructor
  · rfl
  · decide

/-- C8 amended: after initialization and after every rotation, the resolved
path is logDir/YYYY-MM-DD//baseName.HH_MM_SS.log — with TWO consecutive
separators between the dated directory and the file name and a single
separator elsewhere — taking the date and time components from the handle's
timestamp, or the same name with an _N suffix, N >= 1, on collision. -/
theorem rotated_path_format (fs : FS) (f : LOG_FILE) :
    (LOG_FILE.newlogfile fs f).1 =
      f.log_dir ++ "/" ++ pad 4 f.timestamp.year ++ "-" ++ pad 2 f.timestamp.month ++ "-" ++
        pad 2 f.timestamp.day ++ "//" ++ f.log_filename ++ "." ++ pad 2 f.timestamp.hour ++
        "_" ++ pad 2 f.timestamp.minute ++ "_" ++ pad 2 f.timestamp.second ++ ".log" ∨
    ∃ n, 1 ≤ n ∧ (LOG_FILE.newlogfile fs f).1 =
      suffixName (f.log_dir ++ "/" ++ pad 4 f.timestamp.year ++ "-" ++
        pad 2 f.timestamp.month ++ "-" ++ pad 2 f.timestamp.day ++ "//" ++ f.log_filename ++
        "." ++ pad 2 f.timestamp.hour ++ "_" ++ pad 2 f.timestamp.minute ++ "_" ++
        pad 2 f.timestamp.second) n := by
  have hstem : f.logStem = f.log_dir ++ "/" ++ pad 4 f.timestamp.year ++ "-" ++
      pad 2 f.timestamp.month ++ "-" ++ pad 2 f.timestamp.day ++ "//" ++ f.log_filename ++
      "." ++ pad 2 f.timestamp.hour ++ "_" ++ pad 2 f.timestamp.minute ++ "_" ++
      pad 2 f.timestamp.second := by
    have h2 : ("//" : String) = "/" ++ "/" := rfl
    rw [h2]
    apply str_ext
    simp [LOG_FILE.logStem, LOG_FILE.dateDir, str_data_append, List.append_assoc]
  rw [← hstem]
  exact chooseName_shape (mkdirAll fs f.dateDir) f.logStem

/-- C10: calling Initialize with the empty string as the log directory hits
the unconditional read of the directory string's last byte and panics with an
index-out-of-range error, before any filesystem operation: the filesystem
state is returned untouched, for every filesystem, base name and clock. -/
theorem initialize_empty_dir_panics (fs : FS) (fileName : String) (now : GoTime) :
    Initialize fs "" fileName now = (.error "runtime error: index out of range", fs) := rfl

end LoggerSpec
